import Mathlib

/-!
Verification of the Minitel 1 driver core (Minitel.cpp / Minitel.h,
MinitelGfx.cpp / MinitelGfx.h) against its natural-language specification.

The C++ sources are shallowly embedded: member functions that mutate the
driver object become Lean functions from state to state paired with the
list of 7-bit bytes written to the serial sink (for the TX direction) or
the list of events pushed into the FIFO (for the RX direction).
Machine integers are modelled as `Nat` with explicit masking (`&&& 0x7F`
for the parity strip, `&&& 0x3F` for six-bit masks, and so on) exactly
where the source masks.
-/

namespace Minitel

/-- `Minitel::CharSet` (Minitel.h): the tracked G0/G1 shift state. -/
inductive CharSet where
  | G0_ALPHA
  | G1_GRAPHIC
deriving DecidableEq, Repr

/-- `Minitel::SessionState` (Minitel.h lines 64-68).  The source enum has
exactly the three constructors `Closed`, `Opening`, `Open`. -/
inductive SessionState where
  | Closed
  | Opening
  | Open
deriving DecidableEq, Repr, Fintype

/-- `Minitel::Event` (Minitel.h): the tagged union of parsed events.  The
source struct carries a `type` tag plus `code`, `row`, `col`, `escLen`,
`escData` fields; the inductive mirrors the tag with the fields each tag
actually uses (`escData` as a list, whose length is `escLen`). -/
inductive Event where
  | Char (code : Nat)
  | Sep (code row col : Nat)
  | EscSeq (code : Nat) (escData : List Nat)
  | Control (code : Nat)
  | Timeout
deriving DecidableEq, Repr

/-- `Minitel::EscState` (Minitel.h lines 351-355). -/
inductive EscState where
  | ESC_IDLE
  | ESC_GOT_ESC
  | ESC_3B
deriving DecidableEq, Repr

/-- `Minitel::Transaction` (Minitel.h lines 73-80). -/
structure Transaction where
  active : Bool := false
  sepRow : Nat := 0
  sepCol : Nat := 0
  timeoutMs : Nat := 0
  startTime : Nat := 0
  success : Bool := false
deriving DecidableEq, Repr

/-- The RX-side state of the driver: SEP/ESC parser state, session state
and the pending transaction (Minitel.h private section). -/
structure MState where
  waitingSepSecond : Bool
  escState : EscState
  escTmp : List Nat
  sessionState : SessionState
  tx : Transaction
  lastSessionEventMs : Nat
deriving DecidableEq, Repr

/-- The driver state right after construction (field initialisers of
Minitel.h). -/
def initMState : MState :=
  { waitingSepSecond := false
    escState := EscState.ESC_IDLE
    escTmp := []
    sessionState := SessionState.Closed
    tx := {}
    lastSessionEventMs := 0 }

/-- `Minitel::beginTransactionWaitSep` (Minitel.cpp lines 381-388): all
six fields of `tx_` are assigned unconditionally; `millis()` is passed in
as `now`. -/
def beginTransactionWaitSep (now row col timeoutMs : Nat)
    (_tx : Transaction) : Transaction :=
  { active := true
    sepRow := row
    sepCol := col
    timeoutMs := timeoutMs
    startTime := now
    success := false }

/-- `Minitel::onSepForTransaction` (Minitel.cpp lines 390-396). -/
def onSepForTransaction (row col : Nat) (tx : Transaction) : Transaction :=
  if tx.active = false then tx
  else if tx.sepRow ≠ row ∨ tx.sepCol ≠ col then tx
  else { tx with active := false, success := true }

/-- `Minitel::handleSep` (Minitel.cpp lines 218-242): decode the second
SEP byte, run the transaction hook, update the session on SEP 5/4, and
push one `SEP` event. -/
def handleSep (now : Nat) (st : MState) (secondByte : Nat) :
    MState × List Event :=
  let row := (secondByte >>> 4) &&& 0x07
  let col := secondByte &&& 0x0F
  let tx' := onSepForTransaction row col st.tx
  let session' :=
    if row = 5 ∧ col = 4 then
      (if st.sessionState = SessionState.Opening then SessionState.Open
       else st.sessionState)
    else st.sessionState
  let lastMs' := if row = 5 ∧ col = 4 then now else st.lastSessionEventMs
  ({ st with tx := tx', sessionState := session', lastSessionEventMs := lastMs' },
   [Event.Sep (secondByte &&& 0x7F) row col])

/-- `Minitel::handleEscByte` (Minitel.cpp lines 244-293). -/
def handleEscByte (st : MState) (c : Nat) : MState × List Event :=
  match st.escState with
  | EscState.ESC_IDLE => (st, [])
  | EscState.ESC_GOT_ESC =>
    if c = 0x3B then
      ({ st with escState := EscState.ESC_3B, escTmp := [] }, [])
    else if 0x40 ≤ c ∧ c ≤ 0x7F then
      ({ st with escState := EscState.ESC_IDLE }, [Event.EscSeq c []])
    else
      ({ st with escState := EscState.ESC_IDLE }, [])
  | EscState.ESC_3B =>
    let buf := st.escTmp ++ [c]
    if 3 ≤ buf.length then
      ({ st with escState := EscState.ESC_IDLE, escTmp := [] },
       [Event.EscSeq 0x3B (buf.map (fun b => b &&& 0x7F))])
    else
      ({ st with escTmp := buf }, [])

/-- `Minitel::handleLineEditingControl` (Minitel.cpp lines 299-316):
HT, VT, RS, US, CAN and DEL are silently consumed. -/
def handleLineEditingControl (c : Nat) : Bool :=
  (c == 0x09) || (c == 0x0B) || (c == 0x1E) || (c == 0x1F) ||
  (c == 0x18) || (c == 0x7F)

/-- `Minitel::parseByte` (Minitel.cpp lines 318-375): strip parity with
`c &= 0x7F`, then dispatch in strict priority order. -/
def parseByte (now : Nat) (st : MState) (b : Nat) : MState × List Event :=
  let c := b &&& 0x7F
  if st.escState ≠ EscState.ESC_IDLE then
    handleEscByte st c
  else if st.waitingSepSecond then
    let r := handleSep now st c
    ({ r.1 with waitingSepSecond := false }, r.2)
  else if handleLineEditingControl c then
    (st, [])
  else if c = 0x1B then
    ({ st with escState := EscState.ESC_GOT_ESC }, [])
  else if c = 0x13 then
    ({ st with waitingSepSecond := true }, [])
  else if c = 0x0D ∨ c = 0x0A ∨ c = 0x08 then
    (st, [Event.Char c])
  else if c < 0x20 then
    (st, [Event.Control c])
  else if c ≤ 0x7E then
    (st, [Event.Char c])
  else
    (st, [])

/-- The `while (stream_->available())` loop of `Minitel::poll`: feed a
byte sequence through `parseByte`, concatenating the pushed events. -/
def runParser (now : Nat) (st : MState) : List Nat → MState × List Event
  | [] => (st, [])
  | b :: rest =>
    let r := parseByte now st b
    let r' := runParser now r.1 rest
    (r'.1, r.2 ++ r'.2)

/-! ## TX engine

Each TX member function of `Minitel` reads and writes only the tracked
character set `currentSet_`; it is embedded as a function
`CharSet → CharSet × List Nat` returning the new tracked set and the
bytes written to the stream. -/

/-- `Minitel::writeRaw(uint8_t)` (Minitel.cpp lines 196-206): strips the
high bit and forwards one byte to the stream. -/
def writeRaw (b : Nat) : List Nat := [b &&& 0x7F]

/-- `Minitel::printOptimized` (Minitel.cpp lines 519-524).  The live
definition is the "TEMP: simple, safe version – no REP optimization":
a plain loop of `writeRaw` over the characters.  (A REP-compressing
version exists only inside a block comment, lines 525-559.) -/
def printOptimized : List Nat → List Nat
  | [] => []
  | c :: rest => writeRaw c ++ printOptimized rest

/-- `Minitel::clearScreen` (Minitel.cpp lines 561-564): FF, tracker G0. -/
def clearScreen (_s : CharSet) : CharSet × List Nat :=
  (CharSet.G0_ALPHA, writeRaw 0x0C)

/-- `Minitel::home` (Minitel.cpp lines 566-569): RS, tracker G0. -/
def home (_s : CharSet) : CharSet × List Nat :=
  (CharSet.G0_ALPHA, writeRaw 0x1E)

/-- `Minitel::setCursor` (Minitel.cpp lines 571-586): clamp to
1..24 × 1..40, emit `US, 0x40|row, 0x40|col`, tracker G0. -/
def setCursor (row col : Nat) (_s : CharSet) : CharSet × List Nat :=
  let row := if row < 1 then 1 else row
  let row := if row > 24 then 24 else row
  let col := if col < 1 then 1 else col
  let col := if col > 40 then 40 else col
  let rowCode := 0x40 ||| (row &&& 0x1F)
  let colCode := 0x40 ||| (col &&& 0x3F)
  (CharSet.G0_ALPHA, writeRaw 0x1F ++ writeRaw rowCode ++ writeRaw colCode)

/-- `Minitel::setCursorRow0` (Minitel.cpp lines 588-604). -/
def setCursorRow0 (col : Nat) (_s : CharSet) : CharSet × List Nat :=
  let col := if col < 1 then 1 else col
  let col := if col > 40 then 40 else col
  let colCode := 0x40 ||| (col &&& 0x3F)
  (CharSet.G0_ALPHA, writeRaw 0x1F ++ writeRaw 0x40 ++ writeRaw colCode)

/-- `Minitel::putChar` (Minitel.cpp lines 606-612): SI first when the
tracked set is not G0, then the raw character. -/
def putChar (c : Nat) (s : CharSet) : CharSet × List Nat :=
  if s ≠ CharSet.G0_ALPHA then
    (CharSet.G0_ALPHA, writeRaw 0x0F ++ writeRaw c)
  else
    (s, writeRaw c)

/-- `Minitel::print(const char*)` (Minitel.cpp lines 644-650): ensure G0
(emitting SI when needed), then `printOptimized`.  The C string is the
list of its character codes. -/
def print (str : List Nat) (s : CharSet) : CharSet × List Nat :=
  if s ≠ CharSet.G0_ALPHA then
    (CharSet.G0_ALPHA, writeRaw 0x0F ++ printOptimized str)
  else
    (s, printOptimized str)

/-- `Minitel::beginSemiGraphics` (Minitel.cpp lines 720-725). -/
def beginSemiGraphics (s : CharSet) : CharSet × List Nat :=
  if s ≠ CharSet.G1_GRAPHIC then (CharSet.G1_GRAPHIC, writeRaw 0x0E)
  else (s, [])

/-- `Minitel::endSemiGraphics` (Minitel.cpp lines 727-732). -/
def endSemiGraphics (s : CharSet) : CharSet × List Nat :=
  if s ≠ CharSet.G0_ALPHA then (CharSet.G0_ALPHA, writeRaw 0x0F)
  else (s, [])

/-- `Minitel::putSemiGraphic` (Minitel.cpp lines 734-737). -/
def putSemiGraphic (code : Nat) (s : CharSet) : CharSet × List Nat :=
  let r := beginSemiGraphics s
  (r.1, r.2 ++ writeRaw (code &&& 0x7F))

/-- `Minitel::printSemiGraphics` (Minitel.cpp lines 739-745). -/
def printSemiGraphics (str : List Nat) (s : CharSet) : CharSet × List Nat :=
  if s ≠ CharSet.G1_GRAPHIC then
    (CharSet.G1_GRAPHIC, writeRaw 0x0E ++ printOptimized str)
  else
    (s, printOptimized str)

/-- `Minitel::setCharColor` (Minitel.cpp lines 789-792). -/
def setCharColor (c : Nat) (s : CharSet) : CharSet × List Nat :=
  (s, writeRaw 0x1B ++ writeRaw (0x40 ||| (c &&& 0x07)))

/-- `Minitel::setBgColor` (Minitel.cpp lines 794-797). -/
def setBgColor (c : Nat) (s : CharSet) : CharSet × List Nat :=
  (s, writeRaw 0x1B ++ writeRaw (0x50 ||| (c &&& 0x07)))

/-- `Minitel::setFlash` (Minitel.cpp lines 799-802). -/
def setFlash (enable : Bool) (s : CharSet) : CharSet × List Nat :=
  (s, writeRaw 0x1B ++ writeRaw (if enable then 0x48 else 0x49))

/-- `Minitel::setLining` (Minitel.cpp lines 804-807). -/
def setLining (enable : Bool) (s : CharSet) : CharSet × List Nat :=
  (s, writeRaw 0x1B ++ writeRaw (if enable then 0x4A else 0x59))

/-- `Minitel::setMaskReveal` (Minitel.cpp lines 809-812). -/
def setMaskReveal (reveal : Bool) (s : CharSet) : CharSet × List Nat :=
  (s, writeRaw 0x1B ++ writeRaw (if reveal then 0x5F else 0x58))

/-! ## TX operation sequences and shift tracking -/

/-- One TX operation of the public surface named by the spec's shift
invariant. -/
inductive TxOp where
  | putChar (c : Nat)
  | print (str : List Nat)
  | printSemiGraphics (str : List Nat)
  | putSemiGraphic (code : Nat)
  | beginSemiGraphics
  | endSemiGraphics
  | clearScreen
  | home
  | setCursor (row col : Nat)
  | setCursorRow0 (col : Nat)
  | setCharColor (c : Nat)
  | setBgColor (c : Nat)
  | setFlash (b : Bool)
  | setLining (b : Bool)
  | setMaskReveal (b : Bool)
deriving DecidableEq, Repr

/-- Dispatch one `TxOp` to its embedded member function. -/
def applyTxOp (s : CharSet) : TxOp → CharSet × List Nat
  | TxOp.putChar c => putChar c s
  | TxOp.print str => print str s
  | TxOp.printSemiGraphics str => printSemiGraphics str s
  | TxOp.putSemiGraphic code => putSemiGraphic code s
  | TxOp.beginSemiGraphics => beginSemiGraphics s
  | TxOp.endSemiGraphics => endSemiGraphics s
  | TxOp.clearScreen => clearScreen s
  | TxOp.home => home s
  | TxOp.setCursor row col => setCursor row col s
  | TxOp.setCursorRow0 col => setCursorRow0 col s
  | TxOp.setCharColor c => setCharColor c s
  | TxOp.setBgColor c => setBgColor c s
  | TxOp.setFlash b => setFlash b s
  | TxOp.setLining b => setLining b s
  | TxOp.setMaskReveal b => setMaskReveal b s

/-- Run a sequence of TX operations, threading the tracked set and
concatenating the emitted bytes. -/
def runTxOps (s : CharSet) : List TxOp → CharSet × List Nat
  | [] => (s, [])
  | op :: rest =>
    let r := applyTxOp s op
    let r' := runTxOps r.1 rest
    (r'.1, r.2 ++ r'.2)

/-- A data payload is printable when its 7-bit value is at least 0x20,
so that it cannot be mistaken for a shift or cursor control byte. -/
def printableByte (b : Nat) : Bool := 0x20 ≤ b &&& 0x7F

/-- Payload validity for a TX operation: every character or glyph code
passed to `putChar` / `print` / `printSemiGraphics` / `putSemiGraphic` is
printable.  Operations without byte payloads are always valid. -/
def validTxOp : TxOp → Bool
  | TxOp.putChar c => printableByte c
  | TxOp.print str => str.all printableByte
  | TxOp.printSemiGraphics str => str.all printableByte
  | TxOp.putSemiGraphic code => printableByte code
  | _ => true

/-- The character set selected by a byte on the wire, according to the
claim's list of effective shifts: SI and US/FF select G0, SO selects G1,
everything else leaves the selection unchanged.  Modelled from the spec:
this is the spec's reading, which omits RS. -/
def shiftOfByteSpec (s : CharSet) (b : Nat) : CharSet :=
  if b = 0x0F ∨ b = 0x1F ∨ b = 0x0C then CharSet.G0_ALPHA
  else if b = 0x0E then CharSet.G1_GRAPHIC
  else s

/-- Set selected by the most recent effective shift byte of a stream,
per the spec's SI/SO/US/FF list.  Modelled from the spec. -/
def lastShiftSpec : CharSet → List Nat → CharSet
  | s, [] => s
  | s, b :: rest => lastShiftSpec (shiftOfByteSpec s b) rest

/-- Like `shiftOfByteSpec` but also letting RS (`home`, which homes the
cursor and restores default attributes per STUM) select G0 — the list of
resetting bytes the code actually honours. -/
def shiftOfByteA (s : CharSet) (b : Nat) : CharSet :=
  if b = 0x0F ∨ b = 0x1F ∨ b = 0x0C ∨ b = 0x1E then CharSet.G0_ALPHA
  else if b = 0x0E then CharSet.G1_GRAPHIC
  else s

/-- Set selected by the most recent effective shift byte, RS included. -/
def lastShiftA : CharSet → List Nat → CharSet
  | s, [] => s
  | s, b :: rest => lastShiftA (shiftOfByteA s b) rest

/-- Scanning a byte stream with tracked set `s`: `true` when no SI is
sent while G0 is already selected and no SO is sent while G1 is already
selected. -/
def noRedundantShift : CharSet → List Nat → Bool
  | _, [] => true
  | s, b :: rest =>
    !(b == 0x0F && s == CharSet.G0_ALPHA) &&
    (!(b == 0x0E && s == CharSet.G1_GRAPHIC) &&
     noRedundantShift (shiftOfByteA s b) rest)

end Minitel

namespace MinitelGfx

open Minitel (CharSet)

/-- `MinitelGfx::DrawMode` (MinitelGfx.h). -/
inductive DrawMode where
  | BitmapOnly
  | Immediate
deriving DecidableEq, Repr

/-- The graphics engine state (private section of MinitelGfx.h) plus the
borrowed driver's tracked character set `dev_.currentSet_`.  The four
960-entry `uint8_t` arrays are embedded as functions from the cell index
`charIndex(col,row) = row*40 + col` to the stored byte. -/
structure GfxState where
  devSet : CharSet
  drawMode : DrawMode
  cellMask : Nat → Nat
  lastCellMask : Nat → Nat
  cellColor : Nat → Nat
  lastCellColor : Nat → Nat
  drawColor : Nat
  termFgColor : Nat
  curRow : Int
  curCol : Int
  hasCursor : Bool

/-- Point update of an embedded array. -/
def updArr (m : Nat → Nat) (k v : Nat) : Nat → Nat :=
  fun j => if j = k then v else m j

/-- `MinitelGfx::charIndex` (MinitelGfx.cpp lines 33-36). -/
def charIndex (col row : Nat) : Nat := row * 40 + col

/-- `MinitelGfx::subPixelIndexInChar` (MinitelGfx.cpp lines 43-48). -/
def subPixelIndexInChar (xInChar yInChar : Nat) : Nat :=
  yInChar * 2 + xInChar

/-- `MinitelGfx::maskToG1` (MinitelGfx.cpp lines 194-211). -/
def maskToG1 (mask : Nat) : Nat :=
  let m := mask &&& 0x3F
  if m = 0 then 0x20
  else if m = 0x3F then 0x5F
  else if m < 0x20 then 0x20 + m
  else 0x60 + (m - 0x20)

/-- `MinitelGfx::setSubPixelByChar` (MinitelGfx.cpp lines 90-111): set or
clear one sub-pixel bit; setting also stamps the cell colour with the
current draw colour, clearing keeps the colour. -/
def setSubPixelByChar (col row subIndex : Nat) (isOn : Bool)
    (g : GfxState) : GfxState :=
  if 40 ≤ col ∨ 24 ≤ row ∨ 6 ≤ subIndex then g
  else
    let k := charIndex col row
    let bit := 1 <<< subIndex
    if isOn then
      { g with cellMask := updArr g.cellMask k (g.cellMask k ||| bit)
               cellColor := updArr g.cellColor k g.drawColor }
    else
      { g with cellMask := updArr g.cellMask k (g.cellMask k &&& (0xFF ^^^ bit)) }

/-- `MinitelGfx::advanceCursorAfterPrint` (MinitelGfx.cpp lines 448-464). -/
def advanceCursorAfterPrint (g : GfxState) : GfxState :=
  let c := g.curCol + 1
  if c > 40 then
    { g with curCol := 1
             curRow := if g.curRow < 24 then g.curRow + 1 else g.curRow }
  else
    { g with curCol := c }

/-- `MinitelGfx::gotoCell` (MinitelGfx.cpp lines 466-547): clamp the
target, force an absolute `US`+`SO` jump when the cursor is unknown,
otherwise walk relatively (vertical then horizontal, one byte per step)
when that costs at most the 4 bytes of the absolute form. -/
def gotoCell (row col : Nat) (g : GfxState) : GfxState × List Nat :=
  let row := if row < 1 then 1 else if row > 24 then 24 else row
  let col := if col < 1 then 1 else if col > 40 then 40 else col
  if g.hasCursor = false then
    let r1 := Minitel.setCursor row col g.devSet
    let r2 := Minitel.beginSemiGraphics r1.1
    ({ g with devSet := r2.1, curRow := (row : Int), curCol := (col : Int)
              hasCursor := true },
     r1.2 ++ r2.2)
  else
    let dr : Int := (row : Int) - g.curRow
    let dc : Int := (col : Int) - g.curCol
    if dr.natAbs + dc.natAbs ≤ 4 then
      let vert : List Nat :=
        if dr > 0 then List.replicate dr.toNat 0x0A
        else List.replicate (-dr).toNat 0x0B
      let horiz : List Nat :=
        if dc > 0 then List.replicate dc.toNat 0x09
        else List.replicate (-dc).toNat 0x08
      ({ g with curRow := (row : Int), curCol := (col : Int) }, vert ++ horiz)
    else
      let r1 := Minitel.setCursor row col g.devSet
      let r2 := Minitel.beginSemiGraphics r1.1
      ({ g with devSet := r2.1, curRow := (row : Int), curCol := (col : Int) },
       r1.2 ++ r2.2)

/-- `MinitelGfx::updateCellOnScreen` (MinitelGfx.cpp lines 549-575):
in Immediate mode, redraw one cell on screen when its mask differs from
the shadow, and update that shadow entry. -/
def updateCellOnScreen (col row : Nat) (g : GfxState) : GfxState × List Nat :=
  if g.drawMode ≠ DrawMode.Immediate then (g, [])
  else if 40 ≤ col ∨ 24 ≤ row then (g, [])
  else
    let k := charIndex col row
    let mask := g.cellMask k
    if mask = g.lastCellMask k then (g, [])
    else
      let r1 := gotoCell (row + 1) (col + 1) g
      let r2 := Minitel.beginSemiGraphics r1.1.devSet
      let code := maskToG1 mask
      let r3 := Minitel.putSemiGraphic code r2.1
      let g3 := advanceCursorAfterPrint { r1.1 with devSet := r3.1 }
      ({ g3 with lastCellMask := updArr g3.lastCellMask k mask },
       r1.2 ++ r2.2 ++ r3.2)

/-- `MinitelGfx::drawPixel` (MinitelGfx.cpp lines 115-136): reject
coordinates outside the 80×72 grid, otherwise set the sub-pixel and, in
Immediate mode, update the cell on screen. -/
def drawPixel (x y : Int) (isOn : Bool) (g : GfxState) : GfxState × List Nat :=
  if x < 0 ∨ 80 ≤ x ∨ y < 0 ∨ 72 ≤ y then (g, [])
  else
    let col := (x / 2).toNat
    let row := (y / 3).toNat
    let xInChar := (x % 2).toNat
    let yInChar := (y % 3).toNat
    let subIdx := subPixelIndexInChar xInChar yInChar
    let g1 := setSubPixelByChar col row subIdx isOn g
    if g1.drawMode = DrawMode.Immediate then updateCellOnScreen col row g1
    else (g1, [])

/-! ### The OptimizedDiff flush path (`MinitelGfx::flush`, MinitelGfx.cpp
lines 213-224 and 317-446) -/

/-- The emission context used inside `flush`: the borrowed driver's
tracked set, the engine's terminal-foreground tracker `termFgColor_` and
the bytes emitted so far. -/
structure EmitSt where
  devSet : CharSet
  termFg : Nat
  out : List Nat
deriving Repr

/-- `dev_.setCursor(row, col)` inside flush. -/
def emitSetCursor (row col : Nat) (e : EmitSt) : EmitSt :=
  let r := Minitel.setCursor row col e.devSet
  { e with devSet := r.1, out := e.out ++ r.2 }

/-- `dev_.beginSemiGraphics()` inside flush. -/
def emitBeginSemi (e : EmitSt) : EmitSt :=
  let r := Minitel.beginSemiGraphics e.devSet
  { e with devSet := r.1, out := e.out ++ r.2 }

/-- `dev_.endSemiGraphics()` inside flush. -/
def emitEndSemi (e : EmitSt) : EmitSt :=
  let r := Minitel.endSemiGraphics e.devSet
  { e with devSet := r.1, out := e.out ++ r.2 }

/-- `dev_.putSemiGraphic(code)` inside flush. -/
def emitPutSemi (code : Nat) (e : EmitSt) : EmitSt :=
  let r := Minitel.putSemiGraphic code e.devSet
  { e with devSet := r.1, out := e.out ++ r.2 }

/-- `dev_.setCharColor(c); termFgColor_ = c;` inside flush. -/
def emitColorChange (c : Nat) (e : EmitSt) : EmitSt :=
  let r := Minitel.setCharColor c e.devSet
  { e with devSet := r.1, termFg := c, out := e.out ++ r.2 }

/-- `dev_.writeRaw(b)` inside flush. -/
def emitWriteRaw (b : Nat) (e : EmitSt) : EmitSt :=
  { e with out := e.out ++ Minitel.writeRaw b }

/-- The `for (i = 0; i < chunk; ++i) dev_.putSemiGraphic(code)` loop. -/
def emitPutSemiN (code : Nat) : Nat → EmitSt → EmitSt
  | 0, e => e
  | n + 1, e => emitPutSemiN code n (emitPutSemi code e)

/-- The `while (len > 0)` REP-chunking loop of `flushSegment`
(MinitelGfx.cpp lines 357-378): chunks of at most 64 cells; chunks below
the REP threshold 4 are written glyph by glyph, larger chunks as one
glyph followed by `REP, 0x40 + (chunk - 1)`.  The loop removes at least
one cell per iteration, so running it with `fuel` initialised to the
length is exact; the fuel only makes the recursion structural. -/
def emitRunChunksAux (code : Nat) : Nat → Nat → EmitSt → EmitSt
  | _, 0, e => e
  | 0, _ + 1, e => e
  | fuel + 1, len + 1, e =>
    let l := len + 1
    let chunk := if l > 64 then 64 else l
    let e' :=
      if chunk < 4 then emitPutSemiN code chunk e
      else emitWriteRaw (0x40 + (chunk - 1)) (emitWriteRaw 0x12 (emitPutSemi code e))
    emitRunChunksAux code fuel (l - chunk) e'

/-- The REP-chunking loop, entered with sufficient fuel. -/
def emitRunChunks (code : Nat) (len : Nat) (e : EmitSt) : EmitSt :=
  emitRunChunksAux code len len e

/-- The per-row segment accumulator of the OptimizedDiff path:
`inSegment`, `segStartCol`, `runCode`, `runLen`, `runColorIdx`, plus the
emission context and the shared `anyChange` flag. -/
structure SegSt where
  e : EmitSt
  anyChange : Bool
  inSegment : Bool
  segStartCol : Nat
  runCode : Nat
  runLen : Nat
  runColorIdx : Nat
deriving Repr

/-- The `flushSegment` lambda (MinitelGfx.cpp lines 333-382): position
the cursor at the segment start, enter G1, correct the colour, emit the
run, and close the segment. -/
def flushSegment (termRow : Nat) (a : SegSt) : SegSt :=
  if a.inSegment = false ∨ a.runLen = 0 then a
  else
    let e1 := emitSetCursor termRow (a.segStartCol + 1) a.e
    let e2 := emitBeginSemi e1
    let e3 := if a.runColorIdx ≠ e2.termFg then emitColorChange a.runColorIdx e2
              else e2
    let e4 := emitRunChunks a.runCode a.runLen e3
    { a with e := e4, anyChange := true, inSegment := false, runLen := 0 }

/-- The `for (col = 0; col < 40; ++col)` body of the OptimizedDiff path
(MinitelGfx.cpp lines 384-434), recursing over the remaining column
indices. -/
def diffRowCols (g : GfxState) (row : Nat) : List Nat → SegSt → SegSt
  | [], a => a
  | col :: rest, a =>
    let k := charIndex col row
    let curMask := g.cellMask k
    let prevMask := g.lastCellMask k
    let curColr := g.cellColor k
    let prevColr := g.lastCellColor k
    if curMask ≠ prevMask ∨ curColr ≠ prevColr then
      let code := maskToG1 curMask
      let a' :=
        if a.inSegment = false then
          { a with inSegment := true, segStartCol := col, runCode := code
                   runLen := 1, runColorIdx := curColr }
        else if code = a.runCode ∧ curColr = a.runColorIdx ∧ a.runLen < 64 then
          { a with runLen := a.runLen + 1 }
        else
          let a1 := flushSegment (row + 1) a
          { a1 with inSegment := true, segStartCol := col, runCode := code
                    runLen := 1, runColorIdx := curColr }
      diffRowCols g row rest a'
    else
      let a' := if a.inSegment then flushSegment (row + 1) a else a
      diffRowCols g row rest a'

/-- One row of the OptimizedDiff path: fresh segment accumulator, the
column loop, then the trailing `flushSegment`. -/
def diffRow (g : GfxState) (row : Nat) (e : EmitSt) (anyChange : Bool) :
    EmitSt × Bool :=
  let a0 : SegSt :=
    { e := e, anyChange := anyChange, inSegment := false, segStartCol := 0
      runCode := 0, runLen := 0, runColorIdx := e.termFg }
  let a1 := diffRowCols g row (List.range 40) a0
  let a2 := flushSegment (row + 1) a1
  (a2.e, a2.anyChange)

/-- The `for (row = 0; row < 24; ++row)` loop of the OptimizedDiff path. -/
def diffRows (g : GfxState) : List Nat → EmitSt → Bool → EmitSt × Bool
  | [], e, any => (e, any)
  | row :: rest, e, any =>
    let r := diffRow g row e any
    diffRows g rest r.1 r.2

/-- `MinitelGfx::flush(FlushMode::OptimizedDiff)` (MinitelGfx.cpp lines
213-224 and 317-446): reset `hasCursor_`, walk every row emitting the
changed segments, exit G1 when anything was emitted, then copy the
current buffers into the shadows (`syncLastBuffers`). -/
def flushOptimizedDiff (g : GfxState) : GfxState × List Nat :=
  let e0 : EmitSt := { devSet := g.devSet, termFg := g.termFgColor, out := [] }
  let r := diffRows g (List.range 24) e0 false
  let e2 := if r.2 then emitEndSemi r.1 else r.1
  ({ g with devSet := e2.devSet
            termFgColor := e2.termFg
            lastCellMask := g.cellMask
            lastCellColor := g.cellColor
            hasCursor := false },
   e2.out)

/-- The concrete graphics state of spec scenario S5: a cleared
framebuffer whose shadows were just synced by a flush (all masks 0, all
colours white), draw colour 7, terminal-colour tracker 7, cursor
unknown, bitmap-only draw mode, driver back in G0 after the previous
flush. -/
def gfxScenarioS5 : GfxState :=
  { devSet := CharSet.G0_ALPHA
    drawMode := DrawMode.BitmapOnly
    cellMask := fun _ => 0
    lastCellMask := fun _ => 0
    cellColor := fun _ => 7
    lastCellColor := fun _ => 7
    drawColor := 7
    termFgColor := 7
    curRow := 1
    curCol := 1
    hasCursor := false }

end MinitelGfx

/-! ## Theorems -/

namespace Minitel

/-- Each character is written literally by `printOptimized`. -/
theorem printOptimized_eq_map (str : List Nat) :
    printOptimized str = str.map (fun c => c &&& 0x7F) := by
  induction str with
  | nil => rfl
  | cons c rest ih => simp [printOptimized, writeRaw, ih]

/-- C1 (counterexample): `print("AAAAA")` with tracked set G1 does not
emit the claimed REP-compressed sequence `SI, 'A', REP, 0x24`; the live
`printOptimized` performs no REP compression. -/
theorem print_rep_compression_cex :
    (Minitel.print (List.replicate 5 0x41) CharSet.G1_GRAPHIC).2
      ≠ [0x0F, 0x41, 0x12, 0x24] := by decide

/-- C1 (amended): `print` emits SI exactly when the tracked set is not
G0 and then writes every character of the string literally (7-bit
masked); no run is REP-compressed, so `print("AAAAA")` from G1 yields
the six bytes `0x0F, 0x41, 0x41, 0x41, 0x41, 0x41`. -/
theorem print_literal_no_rep (set : CharSet) (str : List Nat) :
    Minitel.print str set =
      (CharSet.G0_ALPHA,
       (if set = CharSet.G0_ALPHA then [] else [0x0F]) ++
         str.map (fun c => c &&& 0x7F)) := by
  unfold Minitel.print
  cases set <;> simp [printOptimized_eq_map, writeRaw] <;> decide

/-- C2 (code evaluation at the failing input): feeding the three bytes
emitted by `setCursor(1,1)` back into the parser yields only the two
`CHAR` events; the leading US byte is silently consumed by
`handleLineEditingControl`, so the `Control(US)` event that both the
claim and `requestCursorPosition` (Minitel.cpp lines 826-856) expect is
never produced. -/
theorem setCursor_loopback_eval :
    (runParser 0 initMState (setCursor 1 1 CharSet.G0_ALPHA).2).2
      = [Event.Char 0x41, Event.Char 0x41] := by decide

/-- C4 (counterexample): starting a second transaction while one is
pending is neither a no-op nor a failure: the pending transaction's
expected SEP row is overwritten by the second request. -/
theorem beginTransaction_second_cex :
    ({ active := true, sepRow := 5, sepCol := 4, timeoutMs := 1000,
       startTime := 0, success := false } : Transaction).active = true ∧
    (beginTransactionWaitSep 10 1 2 50
       { active := true, sepRow := 5, sepCol := 4, timeoutMs := 1000,
         startTime := 0, success := false }).sepRow ≠ 5 := by decide

/-- C4 (amended): calling `beginTransactionWaitSep(r', c', t')` while a
transaction is pending unconditionally replaces it: the expected
(row, col) becomes (r', c'), the timeout and start time are those of the
second request, and success is reset to false; no failure is reported to
the caller. -/
theorem beginTransaction_overwrites (tx : Transaction) (now r c t : Nat)
    (h : tx.active = true) :
    beginTransactionWaitSep now r c t tx =
      { active := true, sepRow := r, sepCol := c, timeoutMs := t,
        startTime := now, success := false } := rfl

/-- Witness for `beginTransaction_overwrites` at a concrete pending
transaction. -/
theorem beginTransaction_overwrites_witness :
    ({ active := true, sepRow := 5, sepCol := 4, timeoutMs := 1000,
       startTime := 0, success := false } : Transaction).active = true ∧
    beginTransactionWaitSep 10 1 2 50
      { active := true, sepRow := 5, sepCol := 4, timeoutMs := 1000,
        startTime := 0, success := false } =
      { active := true, sepRow := 1, sepCol := 2, timeoutMs := 50,
        startTime := 10, success := false } :=
  ⟨rfl, beginTransaction_overwrites _ 10 1 2 50 rfl⟩

end Minitel

namespace MinitelGfx

/-- C9: `maskToG1` realises exactly the spec's four-case mapping and is
injective on the 64 six-bit masks. -/
theorem maskToG1_spec_injective :
    maskToG1 0 = 0x20 ∧ maskToG1 0x3F = 0x5F ∧
    (∀ m : Fin 64, 1 ≤ m.val → m.val ≤ 31 → maskToG1 m.val = 0x20 + m.val) ∧
    (∀ m : Fin 64, 32 ≤ m.val → m.val ≤ 62 →
        maskToG1 m.val = 0x60 + (m.val - 32)) ∧
    (∀ m₁ m₂ : Fin 64, m₁ ≠ m₂ → maskToG1 m₁.val ≠ maskToG1 m₂.val) :=
  ⟨by decide, by decide, by decide, by decide, by decide⟩

/-- Witness for `maskToG1_spec_injective`: the middle-range clause at
mask 5 and injectivity at the pair (7, 9). -/
theorem maskToG1_spec_injective_witness :
    (1 ≤ (5 : Fin 64).val ∧ (5 : Fin 64).val ≤ 31 ∧ maskToG1 (5 : Fin 64).val = 0x25) ∧
    ((7 : Fin 64) ≠ (9 : Fin 64) ∧
      maskToG1 (7 : Fin 64).val ≠ maskToG1 (9 : Fin 64).val) :=
  ⟨⟨by decide, by decide, maskToG1_spec_injective.2.2.1 5 (by decide) (by decide)⟩,
   ⟨by decide, maskToG1_spec_injective.2.2.2.2 7 9 (by decide)⟩⟩

/-- C10: `drawPixel` at any coordinate outside the 80×72 pixel grid is a
no-op in every state (hence in both draw modes): the whole framebuffer,
every shadow entry and the cursor are unchanged and no byte is emitted. -/
theorem drawPixel_out_of_range_noop (g : GfxState) (x y : Int) (isOn : Bool)
    (h : x < 0 ∨ 80 ≤ x ∨ y < 0 ∨ 72 ≤ y) :
    drawPixel x y isOn g = (g, []) := by
  unfold drawPixel
  rw [if_pos h]

/-- Witness for `drawPixel_out_of_range_noop`: x = 80 in BitmapOnly mode
and x = -1 in Immediate mode. -/
theorem drawPixel_out_of_range_noop_witness :
    ((80 : Int) < 0 ∨ (80 : Int) ≤ 80 ∨ (0 : Int) < 0 ∨ (72 : Int) ≤ 0) ∧
    drawPixel 80 0 true gfxScenarioS5 = (gfxScenarioS5, []) ∧
    drawPixel (-1) 5 false { gfxScenarioS5 with drawMode := DrawMode.Immediate }
      = ({ gfxScenarioS5 with drawMode := DrawMode.Immediate }, []) :=
  ⟨by decide,
   drawPixel_out_of_range_noop gfxScenarioS5 80 0 true (by decide),
   drawPixel_out_of_range_noop _ (-1) 5 false (by decide)⟩

/-- C3 (counterexample): the S5 scenario emits more than the five
claimed bytes. -/
theorem gfx_diff_s5_cex :
    (flushOptimizedDiff (drawPixel 0 0 true gfxScenarioS5).1).2
      ≠ [0x1F, 0x41, 0x41, 0x0E, 0x21] := by decide

/-- C3 (amended): on the S5 scenario, `drawPixel(0,0,true)` followed by
`flush(OptimizedDiff)` emits exactly the six bytes US, 0x41, 0x41, SO,
0x21, SI — the claimed five plus the trailing SI with which the flush
leaves G1 after emitting at least one segment. -/
theorem gfx_diff_s5_amended :
    (flushOptimizedDiff (drawPixel 0 0 true gfxScenarioS5).1).2
      = [0x1F, 0x41, 0x41, 0x0E, 0x21, 0x0F] := by decide

end MinitelGfx

namespace Minitel

theorem handleEscByte_session (st : MState) (c : Nat) :
    (handleEscByte st c).1.sessionState = st.sessionState := by
  unfold handleEscByte
  cases hE : st.escState <;> simp [hE] <;> split_ifs <;> rfl

/-- C6 (amended): for every parser state and input byte, the session
state after `parseByte` is `Open` exactly when the byte is the second
byte of a SEP decoding to (5,4) and the session was `Opening`; in every
other case it is unchanged.  The only session transition a parsed byte
can cause is `Opening → Open`. -/
theorem session_transition_characterization (now : Nat) (st : MState) (b : Nat) :
    (parseByte now st b).1.sessionState =
      (if st.escState = EscState.ESC_IDLE ∧ st.waitingSepSecond = true
          ∧ ((b &&& 0x7F) >>> 4) &&& 0x07 = 5 ∧ (b &&& 0x7F) &&& 0x0F = 4
          ∧ st.sessionState = SessionState.Opening
       then SessionState.Open else st.sessionState) := by
  unfold parseByte
  by_cases h1 : st.escState = EscState.ESC_IDLE
  · by_cases h2 : st.waitingSepSecond = true
    · simp [h1, h2, handleSep]
      split_ifs <;> simp_all
    · have h2' : st.waitingSepSecond = false := by
        revert h2; cases st.waitingSepSecond <;> simp
      simp only [h1, h2', ne_eq, not_true_eq_false, if_false, ite_false,
        Bool.false_eq_true, and_false, false_and, and_true, if_neg]
      split_ifs <;> rfl
  · have h1' : st.escState ≠ EscState.ESC_IDLE := h1
    simp [h1', h1, handleEscByte_session]

end Minitel

namespace Minitel

theorem handleEscByte_no_sep (st : MState) (c code row col : Nat) :
    Event.Sep code row col ∉ (handleEscByte st c).2 := by
  unfold handleEscByte
  cases hE : st.escState <;> simp [hE] <;> split_ifs <;> simp

theorem parseByte_sep_shape (now : Nat) (st : MState) (b code row col : Nat)
    (hmem : Event.Sep code row col ∈ (parseByte now st b).2) :
    row = (code >>> 4) &&& 0x07 ∧ col = code &&& 0x0F ∧ code < 128 := by
  unfold parseByte at hmem
  by_cases h1 : st.escState = EscState.ESC_IDLE
  · by_cases h2 : st.waitingSepSecond = true
    · simp only [h1, h2, ne_eq, not_true_eq_false, if_false, if_true,
        ite_true, ite_false, Bool.false_eq_true] at hmem
      simp only [handleSep, List.mem_singleton, Event.Sep.injEq] at hmem
      obtain ⟨hc, hr, hcl⟩ := hmem
      have hmask : (b &&& 0x7F) &&& 0x7F = b &&& 0x7F := by
        rw [Nat.and_assoc]; simp
      rw [hmask] at hc
      subst hc
      subst hr
      subst hcl
      refine ⟨rfl, rfl, ?_⟩
      have hle : b &&& 0x7F ≤ 0x7F := Nat.and_le_right
      omega
    · have h2' : st.waitingSepSecond = false := by
        revert h2; cases st.waitingSepSecond <;> simp
      simp only [h1, h2', ne_eq, not_true_eq_false, if_false, ite_false,
        Bool.false_eq_true, if_true, ite_true] at hmem
      split_ifs at hmem <;> simp at hmem
  · have h1' : st.escState ≠ EscState.ESC_IDLE := h1
    simp only [h1', ne_eq, not_false_eq_true, if_true, ite_true] at hmem
    exact absurd hmem (handleEscByte_no_sep st _ code row col)

theorem sep_code_bit6_iff :
    ∀ x : Fin 128, (x.val = 0x40 ||| (((x.val >>> 4) &&& 0x07) <<< 4) ||| (x.val &&& 0x0F)
      ↔ x.val &&& 0x40 = 0x40) := by decide

/-- C5 (amended): every `Sep` event the parser pushes, over every input
byte sequence and every starting state, carries `row = (code >>> 4) & 7`
in 0..7 and `col = code & 0x0F` in 0..15 with `code < 128`; the claimed
equation `code = 0x40 | (row <<< 4) | col` holds exactly when bit 6 of
the stored code is set. -/
theorem sep_event_fields (now : Nat) (st : MState) (bs : List Nat)
    (code row col : Nat)
    (hmem : Event.Sep code row col ∈ (runParser now st bs).2) :
    row = (code >>> 4) &&& 0x07 ∧ col = code &&& 0x0F ∧ row ≤ 7 ∧ col ≤ 15 ∧
    code < 128 ∧ (code = 0x40 ||| (row <<< 4) ||| col ↔ code &&& 0x40 = 0x40) := by
  induction bs generalizing st with
  | nil => simp [runParser] at hmem
  | cons b rest ih =>
    rw [runParser] at hmem
    rcases List.mem_append.mp hmem with hL | hR
    · obtain ⟨hr, hcl, hlt⟩ := parseByte_sep_shape now st b code row col hL
      refine ⟨hr, hcl, ?_, ?_, hlt, ?_⟩
      · rw [hr]; exact Nat.and_le_right
      · rw [hcl]; exact Nat.and_le_right
      · rw [hr, hcl]; exact sep_code_bit6_iff ⟨code, hlt⟩
    · exact ih _ hR

end Minitel

namespace MinitelGfx

theorem flushSegment_not_inSegment (termRow : Nat) (a : SegSt)
    (h : a.inSegment = false) :
    flushSegment termRow a = a := by
  unfold flushSegment
  rw [if_pos (Or.inl h)]

theorem diffRowCols_no_change (g : GfxState) (row : Nat)
    (hm : ∀ k, g.lastCellMask k = g.cellMask k)
    (hc : ∀ k, g.lastCellColor k = g.cellColor k) :
    ∀ cols a, a.inSegment = false → diffRowCols g row cols a = a := by
  intro cols
  induction cols with
  | nil => intro a _; rfl
  | cons col rest ih =>
    intro a hseg
    rw [diffRowCols]
    rw [hm, hc]
    simp only [ne_eq, not_true_eq_false, or_self, if_false, ite_false, hseg,
      Bool.false_eq_true]
    exact ih a hseg

theorem diffRow_no_change (g : GfxState) (row : Nat) (e : EmitSt) (any : Bool)
    (hm : ∀ k, g.lastCellMask k = g.cellMask k)
    (hc : ∀ k, g.lastCellColor k = g.cellColor k) :
    diffRow g row e any = (e, any) := by
  have h1 : diffRowCols g row (List.range 40)
      { e := e, anyChange := any, inSegment := false, segStartCol := 0,
        runCode := 0, runLen := 0, runColorIdx := e.termFg } =
      { e := e, anyChange := any, inSegment := false, segStartCol := 0,
        runCode := 0, runLen := 0, runColorIdx := e.termFg } :=
    diffRowCols_no_change g row hm hc _ _ rfl
  unfold diffRow
  simp only [h1, flushSegment_not_inSegment]

theorem diffRows_no_change (g : GfxState)
    (hm : ∀ k, g.lastCellMask k = g.cellMask k)
    (hc : ∀ k, g.lastCellColor k = g.cellColor k) :
    ∀ rows e any, diffRows g rows e any = (e, any) := by
  intro rows
  induction rows with
  | nil => intro e any; rfl
  | cons row rest ih =>
    intro e any
    rw [diffRows]
    rw [diffRow_no_change g row e any hm hc]
    exact ih e any

theorem flush_no_change_out (g : GfxState)
    (hm : ∀ k, g.lastCellMask k = g.cellMask k)
    (hc : ∀ k, g.lastCellColor k = g.cellColor k) :
    (flushOptimizedDiff g).2 = [] := by
  unfold flushOptimizedDiff
  simp only [diffRows_no_change g hm hc]
  rfl

/-- C7: for every graphics state, `flush(OptimizedDiff)` copies the
current cell masks and colours into the shadow buffers, and an
immediately repeated `flush(OptimizedDiff)` emits zero bytes. -/
theorem flush_diff_shadow_sync_idempotent (g : GfxState) :
    (flushOptimizedDiff g).1.lastCellMask = g.cellMask ∧
    (flushOptimizedDiff g).1.lastCellColor = g.cellColor ∧
    (flushOptimizedDiff (flushOptimizedDiff g).1).2 = [] := by
  refine ⟨rfl, rfl, ?_⟩
  exact flush_no_change_out _ (fun k => rfl) (fun k => rfl)

end MinitelGfx

namespace Minitel

theorem lastShiftA_append (s : CharSet) (o1 o2 : List Nat) :
    lastShiftA s (o1 ++ o2) = lastShiftA (lastShiftA s o1) o2 := by
  induction o1 generalizing s with
  | nil => rfl
  | cons b rest ih => simp [lastShiftA, ih]

theorem noRedundantShift_append (s : CharSet) (o1 o2 : List Nat) :
    noRedundantShift s (o1 ++ o2) =
      (noRedundantShift s o1 && noRedundantShift (lastShiftA s o1) o2) := by
  induction o1 generalizing s with
  | nil => rfl
  | cons b rest ih =>
    simp [noRedundantShift, lastShiftA, ih, Bool.and_assoc]

theorem testBit6_ge (b : Nat) (h : b.testBit 6 = true) : 0x20 ≤ b := by
  by_contra hlt
  push_neg at hlt
  have hf : b.testBit 6 = false :=
    Nat.testBit_lt_two_pow (by omega)
  rw [h] at hf
  exact absurd hf (by simp)

theorem orConst_ge (k w : Nat) (hk : k.testBit 6 = true) : 0x20 ≤ k ||| w := by
  apply testBit6_ge
  simp [Nat.testBit_or, hk]

theorem orConst_and127_ge (k w : Nat) (hk : k.testBit 6 = true) :
    0x20 ≤ (k ||| w) &&& 0x7F := by
  apply testBit6_ge
  simp [Nat.testBit_and, Nat.testBit_or, hk,
    show Nat.testBit 0x7F 6 = true from by decide]

theorem and127_idem (x : Nat) : x &&& 0x7F &&& 0x7F = x &&& 0x7F := by
  rw [Nat.and_assoc, Nat.and_self]

theorem nonshift_step (s : CharSet) (b : Nat) (h : 0x20 ≤ b) :
    shiftOfByteA s b = s ∧ b ≠ 0x0F ∧ b ≠ 0x0E := by
  refine ⟨?_, by omega, by omega⟩
  unfold shiftOfByteA
  rw [if_neg (by omega), if_neg (by omega)]

theorem printable_list_tracks (str : List Nat)
    (h : str.all printableByte = true) (s : CharSet) :
    lastShiftA s (printOptimized str) = s ∧
      noRedundantShift s (printOptimized str) = true := by
  induction str generalizing s with
  | nil => exact ⟨rfl, rfl⟩
  | cons c rest ih =>
    rw [List.all_cons, Bool.and_eq_true] at h
    have hb : 0x20 ≤ c &&& 0x7F := of_decide_eq_true h.1
    obtain ⟨h1, h2, h3⟩ := nonshift_step s (c &&& 0x7F) hb
    obtain ⟨ih1, ih2⟩ := ih h.2 s
    constructor
    · simp only [printOptimized, writeRaw, List.cons_append, List.nil_append,
        lastShiftA, h1]
      exact ih1
    · simp only [printOptimized, writeRaw, List.cons_append, List.nil_append,
        noRedundantShift, h1]
      simp [h2, h3, ih2]

end Minitel

namespace Minitel

theorem shiftOfByteA_SI (s : CharSet) : shiftOfByteA s 0x0F = CharSet.G0_ALPHA := rfl
theorem shiftOfByteA_SO (s : CharSet) : shiftOfByteA s 0x0E = CharSet.G1_GRAPHIC := rfl
theorem shiftOfByteA_US (s : CharSet) : shiftOfByteA s 0x1F = CharSet.G0_ALPHA := rfl
theorem shiftOfByteA_ESC (s : CharSet) : shiftOfByteA s 0x1B = s := rfl

theorem and127_15 : (0x0F : Nat) &&& 0x7F = 0x0F := rfl
theorem and127_14 : (0x0E : Nat) &&& 0x7F = 0x0E := rfl
theorem and127_31 : (0x1F : Nat) &&& 0x7F = 0x1F := rfl
theorem and127_27 : (0x1B : Nat) &&& 0x7F = 0x1B := rfl
theorem and127_64 : (0x40 : Nat) &&& 0x7F = 0x40 := rfl

theorem usSeq_tracks (s : CharSet) (b1 b2 : Nat)
    (h1 : 0x20 ≤ b1) (h2 : 0x20 ≤ b2) :
    (CharSet.G0_ALPHA = lastShiftA s [0x1F, b1, b2]) ∧
    noRedundantShift s [0x1F, b1, b2] = true := by
  obtain ⟨e1, n1a, n1b⟩ := nonshift_step CharSet.G0_ALPHA b1 h1
  obtain ⟨e2, n2a, n2b⟩ := nonshift_step CharSet.G0_ALPHA b2 h2
  constructor
  · simp [lastShiftA, shiftOfByteA_US, e1, e2]
  · simp [noRedundantShift, shiftOfByteA_US, e1, e2, n1a, n1b, n2a, n2b]

theorem escSeq_tracks (s : CharSet) (b1 : Nat) (h1 : 0x20 ≤ b1) :
    (s = lastShiftA s [0x1B, b1]) ∧ noRedundantShift s [0x1B, b1] = true := by
  obtain ⟨e1, n1a, n1b⟩ := nonshift_step s b1 h1
  constructor
  · simp [lastShiftA, shiftOfByteA_ESC, e1]
  · simp [noRedundantShift, shiftOfByteA_ESC, e1, n1a, n1b]

theorem applyTxOp_tracks (s : CharSet) (op : TxOp) (h : validTxOp op = true) :
    (applyTxOp s op).1 = lastShiftA s (applyTxOp s op).2 ∧
    noRedundantShift s (applyTxOp s op).2 = true := by
  cases op with
  | putChar c =>
    have hb : 0x20 ≤ c &&& 0x7F := of_decide_eq_true h
    obtain ⟨h1, h2, h3⟩ := nonshift_step CharSet.G0_ALPHA (c &&& 0x7F) hb
    cases s <;>
      simp [applyTxOp, putChar, writeRaw, lastShiftA, noRedundantShift,
        and127_15, and127_idem, shiftOfByteA_SI, h1, h2, h3]
  | print str =>
    have hall : str.all printableByte = true := h
    obtain ⟨hL0, hN0⟩ := printable_list_tracks str hall CharSet.G0_ALPHA
    cases s <;>
      simp [applyTxOp, Minitel.print, writeRaw, lastShiftA, noRedundantShift,
        and127_15, shiftOfByteA_SI, hL0, hN0]
  | printSemiGraphics str =>
    have hall : str.all printableByte = true := h
    obtain ⟨hL1, hN1⟩ := printable_list_tracks str hall CharSet.G1_GRAPHIC
    cases s <;>
      simp [applyTxOp, printSemiGraphics, writeRaw, lastShiftA, noRedundantShift,
        and127_14, shiftOfByteA_SO, hL1, hN1]
  | putSemiGraphic code =>
    have hb : 0x20 ≤ code &&& 0x7F := of_decide_eq_true h
    obtain ⟨h1, h2, h3⟩ := nonshift_step CharSet.G1_GRAPHIC (code &&& 0x7F) hb
    cases s <;>
      simp [applyTxOp, putSemiGraphic, beginSemiGraphics, writeRaw, lastShiftA,
        noRedundantShift, and127_14, and127_idem, shiftOfByteA_SO, h1, h2, h3]
  | beginSemiGraphics => cases s <;> decide
  | endSemiGraphics => cases s <;> decide
  | clearScreen => cases s <;> decide
  | home => cases s <;> decide
  | setCursor row col =>
    have hb1 : 0x20 ≤ (0x40 ||| ((if (if row < 1 then 1 else row) > 24 then 24
        else if row < 1 then 1 else row) &&& 0x1F)) &&& 0x7F :=
      orConst_and127_ge 0x40 _ (by decide)
    have hb2 : 0x20 ≤ (0x40 ||| ((if (if col < 1 then 1 else col) > 40 then 40
        else if col < 1 then 1 else col) &&& 0x3F)) &&& 0x7F :=
      orConst_and127_ge 0x40 _ (by decide)
    simp only [applyTxOp, setCursor, writeRaw, List.cons_append,
      List.nil_append, and127_31]
    exact usSeq_tracks s _ _ hb1 hb2
  | setCursorRow0 col =>
    have hb2 : 0x20 ≤ (0x40 ||| ((if (if col < 1 then 1 else col) > 40 then 40
        else if col < 1 then 1 else col) &&& 0x3F)) &&& 0x7F :=
      orConst_and127_ge 0x40 _ (by decide)
    simp only [applyTxOp, setCursorRow0, writeRaw, List.cons_append,
      List.nil_append, and127_31, and127_64]
    exact usSeq_tracks s _ _ (by omega) hb2
  | setCharColor c =>
    have hb : 0x20 ≤ (0x40 ||| (c &&& 0x07)) &&& 0x7F :=
      orConst_and127_ge 0x40 _ (by decide)
    simp only [applyTxOp, setCharColor, writeRaw, List.cons_append,
      List.nil_append, and127_27]
    exact escSeq_tracks s _ hb
  | setBgColor c =>
    have hb : 0x20 ≤ (0x50 ||| (c &&& 0x07)) &&& 0x7F :=
      orConst_and127_ge 0x50 _ (by decide)
    simp only [applyTxOp, setBgColor, writeRaw, List.cons_append,
      List.nil_append, and127_27]
    exact escSeq_tracks s _ hb
  | setFlash b => cases b <;> cases s <;> decide
  | setLining b => cases b <;> cases s <;> decide
  | setMaskReveal b => cases b <;> cases s <;> decide

end Minitel

namespace Minitel

theorem runTxOps_tracks (s : CharSet) (ops : List TxOp)
    (h : ∀ op ∈ ops, validTxOp op = true) :
    (runTxOps s ops).1 = lastShiftA s (runTxOps s ops).2 ∧
    noRedundantShift s (runTxOps s ops).2 = true := by
  induction ops generalizing s with
  | nil => exact ⟨rfl, rfl⟩
  | cons op rest ih =>
    have hop := h op (List.mem_cons_self op rest)
    have hrest : ∀ o ∈ rest, validTxOp o = true :=
      fun o ho => h o (List.mem_cons_of_mem op ho)
    obtain ⟨hs1, hn1⟩ := applyTxOp_tracks s op hop
    obtain ⟨hs2, hn2⟩ := ih (applyTxOp s op).1 hrest
    rw [runTxOps]
    constructor
    · rw [lastShiftA_append, ← hs1]
      exact hs2
    · rw [noRedundantShift_append, ← hs1]
      rw [hn1, hn2]
      rfl

/-- C8 (counterexample): after `beginSemiGraphics` then `home`, the
tracked set is G0 but the most recent effective shift byte in the
emitted stream, per the spec's SI/SO/US/FF list, is the SO of
`beginSemiGraphics` (selecting G1): `home` emits RS, which the claim's
list does not cover. -/
theorem tx_shift_tracker_cex :
    (runTxOps CharSet.G0_ALPHA [TxOp.beginSemiGraphics, TxOp.home]).1 ≠
      lastShiftSpec CharSet.G0_ALPHA
        (runTxOps CharSet.G0_ALPHA [TxOp.beginSemiGraphics, TxOp.home]).2 := by
  decide

/-- C8 (amended): for every sequence of TX operations whose data
payloads are printable (7-bit value at least 0x20), the tracked
`current_set` equals the set selected by the most recent emitted byte
among SI/US/FF/RS (G0) and SO (G1) — RS, emitted by `home`, also resets
the tracker — and an SI or SO byte is emitted only when the tracked set
differs from the target set. -/
theorem tx_shift_tracker (ops : List TxOp)
    (h : ∀ op ∈ ops, validTxOp op = true) :
    (runTxOps CharSet.G0_ALPHA ops).1 =
      lastShiftA CharSet.G0_ALPHA (runTxOps CharSet.G0_ALPHA ops).2 ∧
    noRedundantShift CharSet.G0_ALPHA (runTxOps CharSet.G0_ALPHA ops).2 = true :=
  runTxOps_tracks CharSet.G0_ALPHA ops h

/-- Witness for `tx_shift_tracker` on a concrete operation sequence. -/
theorem tx_shift_tracker_witness :
    (∀ op ∈ [TxOp.beginSemiGraphics, TxOp.putChar 0x41,
             TxOp.setCursor 3 7, TxOp.printSemiGraphics [0x21, 0x21]],
       validTxOp op = true) ∧
    ((runTxOps CharSet.G0_ALPHA [TxOp.beginSemiGraphics, TxOp.putChar 0x41,
        TxOp.setCursor 3 7, TxOp.printSemiGraphics [0x21, 0x21]]).1 =
      lastShiftA CharSet.G0_ALPHA
        (runTxOps CharSet.G0_ALPHA [TxOp.beginSemiGraphics, TxOp.putChar 0x41,
          TxOp.setCursor 3 7, TxOp.printSemiGraphics [0x21, 0x21]]).2 ∧
     noRedundantShift CharSet.G0_ALPHA
        (runTxOps CharSet.G0_ALPHA [TxOp.beginSemiGraphics, TxOp.putChar 0x41,
          TxOp.setCursor 3 7, TxOp.printSemiGraphics [0x21, 0x21]]).2 = true) :=
  ⟨by decide, tx_shift_tracker _ (by decide)⟩

end Minitel

namespace Minitel

/-- C5 (counterexample): feeding `0x13, 0x00` to the parser pushes
`Sep{code=0, row=0, col=0}`, and `0 ≠ 0x40 ||| (0 <<< 4) ||| 0`: the
claimed equation fails for second SEP bytes without bit 6 set, because
`handleSep` stores the raw 7-bit second byte without forcing 0x40. -/
theorem sep_code_invariant_cex :
    Event.Sep 0 0 0 ∈ (runParser 0 initMState [0x13, 0x00]).2 ∧
    (0 : Nat) ≠ 0x40 ||| ((0 : Nat) <<< 4) ||| (0 : Nat) := by decide

/-- Witness for `sep_event_fields`: the SEP event parsed from
`0x13, 0x41`. -/
theorem sep_event_fields_witness :
    Event.Sep 0x41 4 1 ∈ (runParser 0 initMState [0x13, 0x41]).2 ∧
    (4 = (0x41 >>> 4) &&& 0x07 ∧ 1 = 0x41 &&& 0x0F ∧ 4 ≤ 7 ∧ 1 ≤ 15 ∧
     0x41 < 128 ∧
     ((0x41 : Nat) = 0x40 ||| (4 <<< 4) ||| 1 ↔ (0x41 : Nat) &&& 0x40 = 0x40)) :=
  ⟨by decide, sep_event_fields 0 initMState [0x13, 0x41] 0x41 4 1 (by decide)⟩

/-- C6 (counterexample): the driver's `SessionState` enum has exactly
three inhabitants — `Closed`, `Opening`, `Open` — so the session state
cannot range over the four claimed values and no `Closing → Closed`
transition exists. -/
theorem sessionState_card_cex : Fintype.card SessionState = 3 := by decide

end Minitel
